import Mathlib

/-!
# Pipeline & Peril — verification of the game-state engine

Shallow embedding of the game engine in
`src/digital/pygame/src/engine/advanced_game_state.py` (the "advanced" engine)
and `src/digital/pygame/src/engine/game_state.py` (the "basic" engine).

Modelling conventions:
* Python `float` values (uptimes, scores, rates) are modelled as `ℚ`.
* Python `dict` values are modelled as insertion-ordered association lists.
* Python non-negative integer fields (attrs `ge(0)` / pydantic `ge=0`
  validators) are modelled as `ℕ`; unrestricted Python `int` fields as `ℤ`.
* External nondeterminism — the wall clock read by `datetime.now()` and the
  per-process salted string hash `hash(str(...))` — is passed in explicitly
  as oracle arguments (`now : String`, `strHash : String → ℤ`).
* A Python method that mutates `self` and returns a `bool` is modelled as a
  function returning the pair of the `Bool` result and the updated value.
-/

namespace PipelineAndPeril

/-- Game phases. The basic engine's `GamePhase` enum and the advanced engine's
`Literal["setup", ...]` string field share the same six values; `END`/`"end"`
is rendered `end_phase`. -/
inductive GamePhase where
  | setup
  | traffic
  | action
  | resolution
  | chaos
  | end_phase
deriving DecidableEq

/-- Python `HexCoordinate(row, col)` (advanced engine lines 72-103; the basic
engine's coordinate at lines 73-104 has identical arithmetic). -/
structure HexCoordinate where
  row : Int
  col : Int
deriving DecidableEq

/-- Python `x` component of `cube_coords`: `col - (row - (row & 1)) // 2`.
Python `row & 1` (bitwise, two's complement) equals `row % 2` with a
non-negative remainder, which is Lean's `Int.emod` by `2`; the division is
exact, so Python's floor `//` and Lean's `/` agree. -/
def HexCoordinate.cubeX (c : HexCoordinate) : Int :=
  c.col - (c.row - c.row % 2) / 2

/-- Python `z` component of `cube_coords`. -/
def HexCoordinate.cubeZ (c : HexCoordinate) : Int :=
  c.row

/-- Python `y` component of `cube_coords`: `-x - z`. -/
def HexCoordinate.cubeY (c : HexCoordinate) : Int :=
  -c.cubeX - c.cubeZ

/-- Python `cube_coords` (advanced engine lines 78-84). -/
def HexCoordinate.cube_coords (c : HexCoordinate) : Int × Int × Int :=
  (c.cubeX, c.cubeY, c.cubeZ)

/-- Python `distance_to` (advanced lines 86-91) / `distance` (basic lines 92-104):
`(abs(x1-x2) + abs(y1-y2) + abs(z1-z2)) // 2`.  The sum of absolute values is
non-negative, so Python's floor `//2` is `ℕ` division. -/
def HexCoordinate.distance_to (a b : HexCoordinate) : Nat :=
  ((a.cubeX - b.cubeX).natAbs + (a.cubeY - b.cubeY).natAbs
    + (a.cubeZ - b.cubeZ).natAbs) / 2

/-- Python `neighbors(self, *, radius=1)` (advanced lines 93-103): one 6-offset table
per row parity, each offset scaled by every `r in range(1, radius+1)`.  The
generator is materialised as a list in generation order. -/
def HexCoordinate.neighbors (c : HexCoordinate) (radius : Nat := 1) :
    List HexCoordinate :=
  let base_offsets : List (Int × Int) :=
    if c.row % 2 = 0 then
      [(-1, -1), (-1, 0), (0, -1), (0, 1), (1, -1), (1, 0)]
    else
      [(-1, 0), (-1, 1), (0, -1), (0, 1), (1, 0), (1, 1)]
  (List.range radius).flatMap fun i =>
    base_offsets.map fun dd =>
      ⟨c.row + dd.1 * ((i : Int) + 1), c.col + dd.2 * ((i : Int) + 1)⟩

/-- Python `ServiceType` enum (advanced lines 123-129, basic lines 34-41). -/
inductive ServiceType where
  | compute
  | database
  | cache
  | queue
  | load_balancer
  | api_gateway
deriving DecidableEq

/-- Python `ResourceCosts` (advanced lines 162-183) / `ServiceCosts` (basic lines
51-70): four bounded non-negative integers. -/
structure ResourceCosts where
  cpu : Nat
  memory : Nat
  storage : Nat
  capacity : Nat
deriving DecidableEq

/-- Python `ServiceType.costs` lookup (advanced lines 144-159; the basic engine's
`ServiceCosts.get_costs` table at lines 59-70 holds the same values). -/
def ServiceType.costs : ServiceType → ResourceCosts
  | .compute => ⟨2, 2, 1, 5⟩
  | .database => ⟨1, 2, 3, 3⟩
  | .cache => ⟨1, 3, 1, 8⟩
  | .queue => ⟨1, 1, 2, 6⟩
  | .load_balancer => ⟨2, 1, 1, 10⟩
  | .api_gateway => ⟨1, 1, 1, 7⟩

/-- Python `Service` (advanced engine lines 186-230).  `owner_id` is an unrestricted
Python `int`; `current_load`, `bugs`, `upgrades` carry attrs `ge(0)`
validators, hence `ℕ`. -/
structure Service where
  service_type : ServiceType
  location : HexCoordinate
  owner_id : Int
  id : String
  current_load : Nat
  connections : List String
  bugs : Nat
  upgrades : Nat
deriving DecidableEq

/-- Python `Service.max_capacity` (lines 198-202): base capacity plus `upgrades*2`. -/
def Service.max_capacity (s : Service) : Nat :=
  s.service_type.costs.capacity + s.upgrades * 2

/-- Python `Service.available_capacity` (lines 204-209):
`max(0, max_capacity - current_load - bugs * 1)` over Python ints. -/
def Service.available_capacity (s : Service) : Int :=
  max 0 ((s.max_capacity : Int) - (s.current_load : Int) - (s.bugs : Int) * 1)

/-- Python `Service.can_handle_load` (lines 211-213). -/
def Service.can_handle_load (s : Service) (load : Nat) : Bool :=
  decide ((load : Int) ≤ s.available_capacity)

/-- Python `Service.add_load` (lines 215-230): on success `current_load += load`,
return `True`; otherwise return `False` with no mutation.  (The structured-log
calls do not touch the service state.) -/
def Service.add_load (s : Service) (load : Nat) : Bool × Service :=
  if s.can_handle_load load then
    (true, { s with current_load := s.current_load + load })
  else
    (false, s)

/-- Python `PlayerResources` (advanced lines 233-260): three pydantic fields with
`ge=0, le=100`, defaults 5. -/
structure PlayerResources where
  cpu : Nat
  memory : Nat
  storage : Nat
deriving DecidableEq

/-- Python `PlayerResources.total_resources` computed field (lines 241-245). -/
def PlayerResources.total_resources (r : PlayerResources) : Nat :=
  r.cpu + r.memory + r.storage

/-- Python `PlayerResources.can_afford` (lines 247-251). -/
def PlayerResources.can_afford (r : PlayerResources) (c : ResourceCosts) : Bool :=
  decide (c.cpu ≤ r.cpu) && decide (c.memory ≤ r.memory)
    && decide (c.storage ≤ r.storage)

/-- Python `PlayerResources.spend` (lines 253-260): subtract all three dimensions if
affordable (the guard makes the `ℕ` subtractions exact), else no mutation. -/
def PlayerResources.spend (r : PlayerResources) (c : ResourceCosts) :
    Bool × PlayerResources :=
  if r.can_afford c then
    (true, ⟨r.cpu - c.cpu, r.memory - c.memory, r.storage - c.storage⟩)
  else
    (false, r)

/-- Python `Player` (advanced lines 263-303).  `uptime_history` is a
`deque(maxlen=50)` of floats, modelled as a list of `ℚ`. -/
structure Player where
  id : Int
  name : String
  resources : PlayerResources
  actions_remaining : Nat
  services : List String
  uptime_history : List ℚ
  current_uptime : ℚ
  character_ability_used : Bool
deriving DecidableEq

/-- Python `Player.average_uptime` (lines 276-281): mean of the history, falling back
to `current_uptime` on an empty history. -/
def Player.average_uptime (p : Player) : ℚ :=
  if p.uptime_history = [] then p.current_uptime
  else p.uptime_history.sum / (p.uptime_history.length : ℚ)

/-- Python `Player.performance_score` (lines 283-298): `0.0` when the player owns no
services; otherwise `reduce(add, [base, history_bonus, resource_bonus], 0.0)`
with `base = current_uptime * service_count`,
`history_bonus = average_uptime * 0.1`,
`resource_bonus = total_resources * 0.05`. -/
def Player.performance_score (p : Player) : ℚ :=
  if p.services.length = 0 then 0
  else
    0 + p.current_uptime * (p.services.length : ℚ)
      + p.average_uptime * 0.1
      + (p.resources.total_resources : ℚ) * 0.05

/-- Python `GameMetrics` (advanced lines 306-330): five `ge=0` counters. -/
structure GameMetrics where
  total_requests : Nat
  cascade_failures : Nat
  chaos_events : Nat
  services_built : Nat
  connections_created : Nat
deriving DecidableEq

/-- Python `GameMetrics.failure_rate` computed field (lines 316-322): `0.0` when
`total_requests == 0`, else `(cascade_failures / total_requests) * 100`;
being a `@computed_field` property it is computed on every read, never
stored. -/
def GameMetrics.failure_rate (m : GameMetrics) : ℚ :=
  if m.total_requests = 0 then 0
  else ((m.cascade_failures : ℚ) / (m.total_requests : ℚ)) * 100

/-- One entry of the advanced engine's `action_log` (`log_action`, lines
429-440).  `timestamp` holds the `datetime.now().isoformat()` string;
`game_state_hash` holds `hash(str(self.model_dump()))`; `parameters` is the
payload dict rendered as key/value pairs. -/
structure ActionEntry where
  timestamp : String
  round : Nat
  phase : GamePhase
  action_type : String
  player_id : Int
  parameters : List (String × String)
  game_state_hash : Int
deriving DecidableEq

/-- Python `AdvancedGameState` (lines 333-351).  `services` is an insertion-ordered
`dict[str, Service]`. -/
structure AdvancedGameState where
  game_id : String
  round : Nat
  phase : GamePhase
  players : List Player
  services : List (String × Service)
  grid_width : Nat
  grid_height : Nat
  entropy : Nat
  metrics : GameMetrics
  action_log : List ActionEntry
  current_player_index : Nat
deriving DecidableEq

/-- Python `service_grid` computed field (lines 361-366): location-keyed view of the
service map (`{service.location: service_id}`). -/
def AdvancedGameState.service_grid (g : AdvancedGameState) :
    List (HexCoordinate × String) :=
  g.services.map fun kv => (kv.2.location, kv.1)

/-- Python `log_action` (lines 429-440): append one structured entry.  The wall-clock
reading and the salted state hash are external inputs of the run, passed as
`now` and `stateHash`. -/
def AdvancedGameState.log_action (g : AdvancedGameState) (now : String)
    (stateHash : Int) (action_type : String) (player_id : Int)
    (parameters : List (String × String)) : AdvancedGameState :=
  { g with
    action_log := g.action_log ++
      [{ timestamp := now
         round := g.round
         phase := g.phase
         action_type := action_type
         player_id := player_id
         parameters := parameters
         game_state_hash := stateHash }] }

/-- Python `_end_round` (lines 458-476): bump `round`, return to `traffic`, reset the
current player index, and give every player 3 actions and a cleared ability
flag.  (`metrics.model_rebuild()` rebuilds the pydantic class schema and does
not change any counter; the `log.info` call does not touch state.) -/
def AdvancedGameState.end_round (g : AdvancedGameState) : AdvancedGameState :=
  { g with
    round := g.round + 1
    phase := GamePhase.traffic
    current_player_index := 0
    players := g.players.map fun p =>
      { p with actions_remaining := 3, character_ability_used := false } }

/-- Python `next_phase` (lines 442-456): pattern-matching phase transition. -/
def AdvancedGameState.next_phase (g : AdvancedGameState) : AdvancedGameState :=
  match g.phase with
  | .setup => { g with phase := GamePhase.traffic }
  | .traffic => { g with phase := GamePhase.action }
  | .action => { g with phase := GamePhase.resolution }
  | .resolution => { g with phase := GamePhase.chaos }
  | .chaos => g.end_round
  | .end_phase => g

/-- Python `is_game_over` (advanced lines 478-482). -/
def AdvancedGameState.is_game_over (g : AdvancedGameState) : Bool :=
  decide (g.round > 20)
    || g.players.all (fun p => decide (p.current_uptime ≤ 0))
    || decide (g.phase = GamePhase.end_phase)

/-- Python `get_winner` (advanced lines 484-490):
`max(self.players, key=lambda p: p.performance_score, default=None)` —
Python's `max` keeps the first element among ties, replacing the candidate
only on a strictly greater key. -/
def AdvancedGameState.get_winner (g : AdvancedGameState) : Option Player :=
  if !g.is_game_over then none
  else
    match g.players with
    | [] => none
    | p :: ps =>
      some (ps.foldl
        (fun best q =>
          if best.performance_score < q.performance_score then q else best) p)

/-- Python list-index validity: `xs[i]` succeeds iff `-len(xs) ≤ i < len(xs)`
(negative indices count from the end); outside that range it raises
`IndexError`. -/
def pyValidIdx (len : Nat) (i : Int) : Bool :=
  decide (-(len : Int) ≤ i) && decide (i < (len : Int))

/-- Normalise a valid Python index to a `ℕ` position. -/
def pyNormIdx (len : Nat) (i : Int) : Nat :=
  (if i < 0 then i + (len : Int) else i).toNat

/-- Apply `f` to the element at (already normalised) position `n`. -/
def listUpdate (f : α → α) : Nat → List α → List α
  | _, [] => []
  | 0, a :: l => f a :: l
  | n + 1, a :: l => a :: listUpdate f n l

/-- Python `dict` assignment `d[k] = v` on an insertion-ordered association
list: overwrite in place if the key exists, else append. -/
def dictInsert (k : String) (v : Service) :
    List (String × Service) → List (String × Service)
  | [] => [(k, v)]
  | kv :: rest =>
    if kv.1 = k then (k, v) :: rest else kv :: dictInsert k v rest

/-- The `value` string of a `ServiceType` enum member. -/
def ServiceType.value : ServiceType → String
  | .compute => "compute"
  | .database => "database"
  | .cache => "cache"
  | .queue => "queue"
  | .load_balancer => "load_balancer"
  | .api_gateway => "api_gateway"

/-- Python `add_service` (advanced lines 390-427).  Order of effects in the source:
bounds check, occupancy check, insert into `services`, append to
`players[owner_id].services` (raises `IndexError` for an invalid Python
index — caught by the surrounding `try`, which then returns `False` without
undoing the insertion), increment `metrics.services_built`, `log_action`,
return `True`. -/
def AdvancedGameState.add_service (g : AdvancedGameState) (svc : Service)
    (now : String) (stateHash : Int) : Bool × AdvancedGameState :=
  if !(decide (0 ≤ svc.location.row) && decide (svc.location.row < (g.grid_height : Int))
      && decide (0 ≤ svc.location.col) && decide (svc.location.col < (g.grid_width : Int))) then
    (false, g)
  else if (g.service_grid.map Prod.fst).contains svc.location then
    (false, g)
  else
    let g1 := { g with services := dictInsert svc.id svc g.services }
    if pyValidIdx g1.players.length svc.owner_id then
      let g2 := { g1 with
        players := listUpdate (fun p => { p with services := p.services ++ [svc.id] })
          (pyNormIdx g1.players.length svc.owner_id) g1.players }
      let g3 := { g2 with
        metrics := { g2.metrics with services_built := g2.metrics.services_built + 1 } }
      let g4 := g3.log_action now stateHash "build_service" svc.owner_id
        [("service_type", svc.service_type.value),
         ("location", toString svc.location.row ++ "," ++ toString svc.location.col),
         ("service_id", svc.id)]
      (true, g4)
    else
      (false, g1)

/-- Python `handle_chaos_phase` (advanced lines 641-659).  The chaos roll is
`(hash(str(round * entropy)) % 8) + 1`, where `hash` is Python's per-process
salted string hash, passed in as the oracle `strHash`; rolls 7 and 8 increment
`cascade_failures`, every triggered event increments `chaos_events`, and
finally `entropy = min(10, entropy + 1)` unconditionally. -/
def handle_chaos_phase (strHash : String → Int) (g : AdvancedGameState) :
    AdvancedGameState :=
  let g1 :=
    if g.entropy > 3 then
      let chaos_roll := strHash (toString (g.round * g.entropy)) % 8 + 1
      let g' :=
        if chaos_roll = 7 ∨ chaos_roll = 8 then
          { g with metrics :=
            { g.metrics with cascade_failures := g.metrics.cascade_failures + 1 } }
        else g
      { g' with metrics :=
        { g'.metrics with chaos_events := g'.metrics.chaos_events + 1 } }
    else g
  { g1 with entropy := min 10 (g1.entropy + 1) }

/-! ## Basic engine (`game_state.py`) -/

/-- The basic engine's `Player.resources` is a `Dict[ResourceType, int]` with
the three keys always present; modelled as a record of unrestricted ints. -/
structure GSResources where
  cpu : Int
  memory : Int
  storage : Int
deriving DecidableEq

/-- Python `Player` of the basic engine (lines 140-169). -/
structure GSPlayer where
  id : Nat
  name : String
  resources : GSResources
  actions_remaining : Nat
  services : List String
  uptime_history : List ℚ
  current_uptime : ℚ
  character_ability_used : Bool
deriving DecidableEq

/-- Python `Player.can_afford` (basic lines 156-160). -/
def GSPlayer.can_afford (p : GSPlayer) (c : ResourceCosts) : Bool :=
  decide ((c.cpu : Int) ≤ p.resources.cpu)
    && decide ((c.memory : Int) ≤ p.resources.memory)
    && decide ((c.storage : Int) ≤ p.resources.storage)

/-- Python `Player.spend_resources` (basic lines 162-169). -/
def GSPlayer.spend_resources (p : GSPlayer) (c : ResourceCosts) :
    Bool × GSPlayer :=
  if p.can_afford c then
    (true, { p with resources :=
      ⟨p.resources.cpu - (c.cpu : Int), p.resources.memory - (c.memory : Int),
       p.resources.storage - (c.storage : Int)⟩ })
  else
    (false, p)

/-- Python `Service` of the basic engine (lines 107-137). -/
structure GSService where
  id : String
  service_type : ServiceType
  location : HexCoordinate
  owner_id : Int
  current_capacity : Int
  max_capacity : Int
  connections : List String
  bugs : Nat
  upgrades : Nat
deriving DecidableEq

/-- Python `Grid` (basic lines 172-204). -/
structure Grid where
  width : Nat
  height : Nat
  services : List (HexCoordinate × String)
deriving DecidableEq

/-- Python `Metrics` (basic lines 207-220). -/
structure GSMetrics where
  total_requests_handled : Nat
  cascade_failures : Nat
  chaos_events_triggered : Nat
  services_built : Nat
  connections_created : Nat
  average_uptime : ℚ
deriving DecidableEq

/-- One entry of the basic engine's action log (lines 288-299). -/
structure GSActionEntry where
  timestamp : String
  round : Nat
  phase : GamePhase
  action_type : String
  player_id : Int
  parameters : List (String × String)
  result : List (String × String)
deriving DecidableEq

/-- Python `GameState` of the basic engine (lines 223-235). -/
structure GameState where
  game_id : String
  round : Nat
  phase : GamePhase
  players : List GSPlayer
  grid : Grid
  services : List (String × GSService)
  metrics : GSMetrics
  entropy : Nat
  current_player_index : Nat
  action_log : List GSActionEntry
deriving DecidableEq

/-- Python `GameState.next_phase` (basic lines 245-262): realised in the source by
indexing into `phase_order = [TRAFFIC, ACTION, RESOLUTION, CHAOS]`; `CHAOS` is
the last entry, so it rolls the round over with the player resets, `SETUP`
maps to `TRAFFIC`, and `END` (not in the list) is left unchanged. -/
def GameState.next_phase (g : GameState) : GameState :=
  match g.phase with
  | .setup => { g with phase := GamePhase.traffic }
  | .traffic => { g with phase := GamePhase.action }
  | .action => { g with phase := GamePhase.resolution }
  | .resolution => { g with phase := GamePhase.chaos }
  | .chaos =>
    { g with
      round := g.round + 1
      phase := GamePhase.traffic
      current_player_index := 0
      players := g.players.map fun p =>
        { p with actions_remaining := 3, character_ability_used := false } }
  | .end_phase => g

/-- Python `GameState.is_game_over` (basic lines 301-305): `round > 20` or every
player at `current_uptime ≤ 0` (no phase check in this engine). -/
def GameState.is_game_over (g : GameState) : Bool :=
  decide (g.round > 20)
    || g.players.all (fun p => decide (p.current_uptime ≤ 0))

/-- Mean of all players' `current_uptime`
(`sum(p.current_uptime for p in self.players) / len(self.players)` at basic
line 314; Python raises `ZeroDivisionError` on an empty player list, so
theorems about this expression assume `players ≠ []`). -/
def GameState.mean_uptime (g : GameState) : ℚ :=
  (g.players.map GSPlayer.current_uptime).sum / (g.players.length : ℚ)

/-- Python `GameState.get_winner` (basic lines 307-328): `None` while the game is
running; cooperative victory (`None`) when `round ≥ 10` and the mean uptime
exceeds 80; otherwise the first player with the strictly-best
`current_uptime * len(services)` score, starting from `best_score = -1`. -/
def GameState.get_winner (g : GameState) : Option GSPlayer :=
  if !g.is_game_over then none
  else if decide (10 ≤ g.round) && decide (80 < g.mean_uptime) then none
  else
    (g.players.foldl
      (fun acc p =>
        if acc.2 < p.current_uptime * (p.services.length : ℚ) then
          (some p, p.current_uptime * (p.services.length : ℚ))
        else acc)
      ((none : Option GSPlayer), (-1 : ℚ))).1

/-! ## Sample states used by concrete theorems -/

/-- A player of the advanced engine with the source's default field values,
an empty service list, and the given id/name/uptime. -/
def advPlayer (i : Int) (nm : String) (u : ℚ) : Player :=
  { id := i, name := nm, resources := ⟨5, 5, 5⟩, actions_remaining := 3,
    services := [], uptime_history := [], current_uptime := u,
    character_ability_used := false }

/-- A player of the basic engine with the source's default field values. -/
def gsPlayer (i : Nat) (nm : String) (u : ℚ) : GSPlayer :=
  { id := i, name := nm, resources := ⟨5, 5, 5⟩, actions_remaining := 3,
    services := [], uptime_history := [], current_uptime := u,
    character_ability_used := false }

/-- An advanced-engine state with no players, default grid, entropy 5. -/
def sampleGame : AdvancedGameState :=
  { game_id := "game-1", round := 1, phase := GamePhase.setup, players := [],
    services := [], grid_width := 8, grid_height := 6, entropy := 5,
    metrics := ⟨0, 0, 0, 0, 0⟩, action_log := [], current_player_index := 0 }

/-- An advanced-engine state in the `chaos` phase at the entropy value 10. -/
def chaosState : AdvancedGameState :=
  { game_id := "game-2", round := 5, phase := GamePhase.chaos, players := [],
    services := [], grid_width := 8, grid_height := 6, entropy := 10,
    metrics := ⟨0, 0, 0, 0, 0⟩, action_log := [], current_player_index := 0 }

/-! ## C10 — `failure_rate` is total and division-safe -/

/-- C10: for every metrics state, `failure_rate` equals `0.0` when
`total_requests = 0` and `(cascade_failures / total_requests) * 100`
otherwise; as a total Lean function of the metrics record it can raise no
division error and is recomputed on each read rather than stored. -/
theorem failure_rate_total (m : GameMetrics) :
    (m.total_requests = 0 → m.failure_rate = 0)
    ∧ (m.total_requests ≠ 0 →
        m.failure_rate = ((m.cascade_failures : ℚ) / (m.total_requests : ℚ)) * 100) := by
  refine ⟨fun h => ?_, fun h => ?_⟩ <;> simp [GameMetrics.failure_rate, h]

/-- Witness for C10 at concrete metrics values. -/
theorem failure_rate_total_witness :
    GameMetrics.failure_rate ⟨0, 0, 0, 0, 0⟩ = 0
    ∧ GameMetrics.failure_rate ⟨8, 2, 0, 0, 0⟩ = ((2 : ℚ) / 8) * 100 :=
  ⟨(failure_rate_total ⟨0, 0, 0, 0, 0⟩).1 rfl,
   (failure_rate_total ⟨8, 2, 0, 0, 0⟩).2 (by decide)⟩

/-! ## C5 — `spend` is atomic -/

/-- C5: in both engines, if the pool covers every dimension of the cost then
`spend` subtracts exactly the cost from each of cpu, memory, storage and
returns success; otherwise it returns failure with all three dimensions
unchanged; and a failed `spend` implies `afford` is false. -/
theorem spend_atomic (r : PlayerResources) (c : ResourceCosts) (p : GSPlayer) :
    (r.can_afford c = true →
      (r.spend c).1 = true
      ∧ (r.spend c).2.cpu + c.cpu = r.cpu
      ∧ (r.spend c).2.memory + c.memory = r.memory
      ∧ (r.spend c).2.storage + c.storage = r.storage)
    ∧ (r.can_afford c = false → (r.spend c).1 = false ∧ (r.spend c).2 = r)
    ∧ ((r.spend c).1 = false → r.can_afford c = false)
    ∧ (p.can_afford c = true →
      (p.spend_resources c).1 = true
      ∧ (p.spend_resources c).2.resources.cpu = p.resources.cpu - (c.cpu : Int)
      ∧ (p.spend_resources c).2.resources.memory = p.resources.memory - (c.memory : Int)
      ∧ (p.spend_resources c).2.resources.storage = p.resources.storage - (c.storage : Int))
    ∧ (p.can_afford c = false →
      (p.spend_resources c).1 = false ∧ (p.spend_resources c).2 = p) := by
  refine ⟨?_, ?_, ?_, ?_, ?_⟩
  · intro h
    have h' := h
    simp only [PlayerResources.can_afford, Bool.and_eq_true, decide_eq_true_eq] at h'
    simp [PlayerResources.spend, h]
    omega
  · intro h
    simp [PlayerResources.spend, h]
  · intro h
    cases hca : r.can_afford c
    · rfl
    · simp [PlayerResources.spend, hca] at h
  · intro h
    simp [GSPlayer.spend_resources, h]
  · intro h
    simp [GSPlayer.spend_resources, h]

/-- Witness for C5: the spec scenario — a `(5,5,5)` pool buying a Compute
service leaves `(3,3,4)` — plus a failing spend that changes nothing. -/
theorem spend_atomic_witness :
    ((PlayerResources.spend ⟨5, 5, 5⟩ ServiceType.compute.costs).1 = true
      ∧ (PlayerResources.spend ⟨5, 5, 5⟩ ServiceType.compute.costs).2.cpu + 2 = 5
      ∧ (PlayerResources.spend ⟨5, 5, 5⟩ ServiceType.compute.costs).2.memory + 2 = 5
      ∧ (PlayerResources.spend ⟨5, 5, 5⟩ ServiceType.compute.costs).2.storage + 1 = 5)
    ∧ ((PlayerResources.spend ⟨1, 0, 0⟩ ServiceType.compute.costs).1 = false
      ∧ (PlayerResources.spend ⟨1, 0, 0⟩ ServiceType.compute.costs).2 = ⟨1, 0, 0⟩) :=
  ⟨(spend_atomic ⟨5, 5, 5⟩ ServiceType.compute.costs (gsPlayer 0 "Alice" 100)).1 (by decide),
   (spend_atomic ⟨1, 0, 0⟩ ServiceType.compute.costs (gsPlayer 0 "Alice" 100)).2.1 (by decide)⟩

/-! ## C3 — entropy update in the Chaos phase -/

/-- C3 counterexample: at `entropy = 10` the code caps the counter at 10
(`min(10, entropy + 1)` at line 659), not at the claimed
`min(20, entropy + 1) = 11`. -/
theorem chaos_entropy_cex :
    (handle_chaos_phase (fun _ => 0) chaosState).entropy
      ≠ min 20 (chaosState.entropy + 1) := by decide

/-- C3 (amended): after every Chaos phase, whatever the hash oracle returns,
`entropy = min(10, entropy + 1)` — updated exactly once, unconditionally —
so entropy never exceeds 10 and increases by exactly 1 until that cap. -/
theorem chaos_entropy_update (strHash : String → Int) (g : AdvancedGameState) :
    (handle_chaos_phase strHash g).entropy = min 10 (g.entropy + 1)
    ∧ (handle_chaos_phase strHash g).entropy ≤ 10 := by
  have h1 : (handle_chaos_phase strHash g).entropy = min 10 (g.entropy + 1) := by
    by_cases h : g.entropy > 3
    · simp only [handle_chaos_phase, h, if_true]
      split <;> simp
    · simp [handle_chaos_phase, h]
  exact ⟨h1, by rw [h1]; omega⟩

/-! ## C7 — `performance_score` formula -/

/-- A player owning no services; default uptime 100 and `(5,5,5)` pool. -/
def zeroServicePlayer : Player := advPlayer 0 "Alice" 100

/-- C7 counterexample: at a player with zero services the code returns `0.0`
while the claimed formula gives `0.1*100 + 0.05*15 = 10.75`. -/
theorem performance_score_cex :
    Player.performance_score zeroServicePlayer
      ≠ zeroServicePlayer.current_uptime * (zeroServicePlayer.services.length : ℚ)
        + 0.1 * zeroServicePlayer.average_uptime
        + 0.05 * (zeroServicePlayer.resources.total_resources : ℚ) := by
  norm_num [Player.performance_score, Player.average_uptime,
    PlayerResources.total_resources, zeroServicePlayer, advPlayer]

/-- C7 (amended): the claimed formula
`current_uptime * count + 0.1 * average_uptime + 0.05 * total_resources`
holds whenever the player owns at least one service; with zero services the
score is hard-coded to `0.0` instead. -/
theorem performance_score_formula (p q : Player)
    (hp : p.services.length ≠ 0) (hq : q.services.length = 0) :
    p.performance_score
      = p.current_uptime * (p.services.length : ℚ)
        + 0.1 * p.average_uptime
        + 0.05 * (p.resources.total_resources : ℚ)
    ∧ q.performance_score = 0 := by
  constructor
  · simp only [Player.performance_score, hp, if_false, if_neg hp]
    ring
  · simp [Player.performance_score, hq]

/-- A player owning one service, with a non-empty uptime history. -/
def oneServicePlayer : Player :=
  { id := 1, name := "Bob", resources := ⟨3, 3, 4⟩, actions_remaining := 2,
    services := ["svc-a"], uptime_history := [90, 100], current_uptime := 95,
    character_ability_used := false }

/-- Witness for C7's amended theorem at concrete players. -/
theorem performance_score_formula_witness :
    Player.performance_score oneServicePlayer
      = oneServicePlayer.current_uptime * (oneServicePlayer.services.length : ℚ)
        + 0.1 * oneServicePlayer.average_uptime
        + 0.05 * (oneServicePlayer.resources.total_resources : ℚ)
    ∧ Player.performance_score zeroServicePlayer = 0 :=
  performance_score_formula oneServicePlayer zeroServicePlayer
    (by decide) (by decide)

/-! ## C1 — two-run determinism -/

/-- C1 (evidence for the code bug): replaying the *same* state and the *same*
external action in two independent runs breaks determinism through two
channels the code reads from the environment: (1) `log_action` stamps each
entry with `datetime.now().isoformat()`, so runs with different wall-clock
readings produce unequal action logs; (2) the chaos roll is computed from
Python's per-process salted `hash(str(...))`, so runs with different hash
salts produce unequal final metrics (here one salt rolls a cascade failure,
the other does not). -/
theorem determinism_broken :
    (sampleGame.log_action "2024-01-01T00:00:00" 0 "build_service" 0 []).action_log
      ≠ (sampleGame.log_action "2024-01-01T00:00:01" 0 "build_service" 0 []).action_log
    ∧ (handle_chaos_phase (fun _ => 6) sampleGame).metrics
      ≠ (handle_chaos_phase (fun _ => 0) sampleGame).metrics := by
  constructor <;> decide

/-! ## C6 — `add_load` success condition and capacity bound -/

/-- C6 counterexample: a service constructed with `current_load = 10` (the
attrs validators only require non-negativity) accepts `add_load(0)` — since
`available_capacity = max(0, ...) ≥ 0` always — yet afterwards
`current_load + bugs = 10 > 5 = base_capacity(compute) + upgrades*2`,
so the claimed bound does not follow from a successful `add_load`. -/
theorem add_load_bound_cex :
    (Service.add_load
        ⟨ServiceType.compute, ⟨0, 0⟩, 0, "svc-x", 10, [], 0, 0⟩ 0).1 = true
    ∧ ¬ ((Service.add_load
          ⟨ServiceType.compute, ⟨0, 0⟩, 0, "svc-x", 10, [], 0, 0⟩ 0).2.current_load
        + (Service.add_load
          ⟨ServiceType.compute, ⟨0, 0⟩, 0, "svc-x", 10, [], 0, 0⟩ 0).2.bugs
        ≤ ServiceType.compute.costs.capacity + 0 * 2) := by
  constructor <;> decide

/-- C6 (amended): `add_load n` succeeds iff `available_capacity ≥ n` where
`available_capacity = max(0, max_capacity - current_load - bugs)` and
`max_capacity = base_capacity(type) + upgrades*2`; on success it adds exactly
`n` to `current_load` and mutates nothing else, on failure it mutates
nothing; and after every successful `add_load` with `n ≥ 1` (zero loads
succeed even on an over-full service, changing nothing) the bound
`current_load + bugs ≤ base_capacity(type) + upgrades*2` holds. -/
theorem add_load_spec (s : Service) (n : Nat) :
    ((s.add_load n).1 = true ↔ (n : Int) ≤ s.available_capacity)
    ∧ ((s.add_load n).1 = true →
        (s.add_load n).2 = { s with current_load := s.current_load + n })
    ∧ ((s.add_load n).1 = false → (s.add_load n).2 = s)
    ∧ s.available_capacity
        = max 0 ((s.service_type.costs.capacity : Int) + (s.upgrades : Int) * 2
            - (s.current_load : Int) - (s.bugs : Int))
    ∧ (1 ≤ n → (s.add_load n).1 = true →
        (s.add_load n).2.current_load + (s.add_load n).2.bugs
          ≤ s.service_type.costs.capacity + s.upgrades * 2) := by
  have hav : s.available_capacity
      = max 0 ((s.service_type.costs.capacity : Int) + (s.upgrades : Int) * 2
          - (s.current_load : Int) - (s.bugs : Int)) := by
    simp only [Service.available_capacity, Service.max_capacity]
    push_cast
    ring_nf
  by_cases hc : (n : Int) ≤ s.available_capacity
  · have hrun : s.add_load n = (true, { s with current_load := s.current_load + n }) := by
      simp [Service.add_load, Service.can_handle_load, hc]
    refine ⟨by simp [hrun, hc], fun _ => by simp [hrun], fun hf => by simp [hrun] at hf,
      hav, fun h1 _ => ?_⟩
    rw [hav] at hc
    simp only [hrun]
    omega
  · have hrun : s.add_load n = (false, s) := by
      simp [Service.add_load, Service.can_handle_load, hc]
    exact ⟨by simp [hrun, hc], fun ht => by simp [hrun] at ht, fun _ => by simp [hrun],
      hav, fun _ ht => by simp [hrun] at ht⟩

/-- A fresh Compute service with no load, bugs, or upgrades. -/
def freshCompute : Service :=
  ⟨ServiceType.compute, ⟨0, 0⟩, 0, "svc-0", 0, [], 0, 0⟩

/-- Witness for C6's amended theorem: loading 3 onto a fresh Compute service
succeeds and respects the capacity bound. -/
theorem add_load_spec_witness :
    (freshCompute.add_load 3).1 = true
    ∧ (freshCompute.add_load 3).2
        = { freshCompute with current_load := freshCompute.current_load + 3 }
    ∧ (freshCompute.add_load 3).2.current_load + (freshCompute.add_load 3).2.bugs
        ≤ freshCompute.service_type.costs.capacity + freshCompute.upgrades * 2 :=
  ⟨(add_load_spec freshCompute 3).1.mpr (by decide),
   (add_load_spec freshCompute 3).2.1 ((add_load_spec freshCompute 3).1.mpr (by decide)),
   (add_load_spec freshCompute 3).2.2.2.2 (by decide)
     ((add_load_spec freshCompute 3).1.mpr (by decide))⟩

/-! ## C2 — cooperative victory -/

/-- An advanced-engine state that is over (`round = 21 > 20`) with three
players whose mean uptime is 85. -/
def advOverState : AdvancedGameState :=
  { game_id := "game-3", round := 21, phase := GamePhase.traffic,
    players := [advPlayer 0 "Alice" 85, advPlayer 1 "Bob" 82, advPlayer 2 "Charlie" 88],
    services := [], grid_width := 8, grid_height := 6, entropy := 0,
    metrics := ⟨0, 0, 0, 0, 0⟩, action_log := [], current_player_index := 0 }

/-- C2 counterexample: the advanced engine's `get_winner` (lines 484-490) has
no cooperative-victory branch: on a finished game with `round ≥ 10` and mean
uptime `85 > 80` it still returns a single winner (the first
maximal-performance player) instead of a no-single-winner outcome. -/
theorem get_winner_coop_cex :
    advOverState.is_game_over = true
    ∧ 10 ≤ advOverState.round
    ∧ 80 < (advOverState.players.map Player.current_uptime).sum
          / (advOverState.players.length : ℚ)
    ∧ advOverState.get_winner = some (advPlayer 0 "Alice" 85) := by
  refine ⟨by decide, by decide, ?_, ?_⟩
  · norm_num [advOverState, advPlayer]
  · simp [AdvancedGameState.get_winner, AdvancedGameState.is_game_over, advOverState,
      advPlayer, Player.performance_score]

/-- The spec's scenario: three players at uptimes `[85, 82, 88]`, `round = 10`
(basic engine). -/
def scenarioRound10 : GameState :=
  { game_id := "game-4", round := 10, phase := GamePhase.chaos,
    players := [gsPlayer 0 "Alice" 85, gsPlayer 1 "Bob" 82, gsPlayer 2 "Charlie" 88],
    grid := ⟨8, 6, []⟩, services := [], metrics := ⟨0, 0, 0, 0, 0, 100⟩,
    entropy := 0, current_player_index := 0, action_log := [] }

/-- C2 (amended): in the basic engine — the one implementing cooperative
victory — every finished game with a non-empty player list, `round ≥ 10` and
mean uptime above 80 yields the cooperative outcome `none`; and in the
round-10 scenario `get_winner` also returns no single winner, though through
the game-not-over early exit (`round = 10 ≤ 20` and positive uptimes), not
through the cooperative branch. -/
theorem get_winner_cooperative (g : GameState)
    (_hne : g.players ≠ [])
    (hover : g.is_game_over = true)
    (hround : 10 ≤ g.round)
    (hmean : 80 < g.mean_uptime) :
    g.get_winner = none
    ∧ scenarioRound10.get_winner = none
    ∧ scenarioRound10.is_game_over = false := by
  refine ⟨?_, by decide, by decide⟩
  simp [GameState.get_winner, hover, hround, hmean]

/-- The basic-engine state of the scenario pushed past the round limit so the
game is actually over. -/
def coopOverState : GameState :=
  { scenarioRound10 with round := 21 }

/-- Witness for C2's amended theorem: the finished high-uptime game has no
single winner. -/
theorem get_winner_cooperative_witness :
    coopOverState.get_winner = none :=
  (get_winner_cooperative coopOverState (by decide) (by decide) (by decide)
    (by norm_num [GameState.mean_uptime, coopOverState, scenarioRound10, gsPlayer])).1

/-! ## C9 — `add_service` failure path is not atomic for invalid owners -/

/-- C9: with an in-bounds, unoccupied location but an `owner_id` that is not
a valid Python index into `players`, `add_service` returns `false` without
propagating the `IndexError` (the `try/except` swallows it) — yet the service
has already been inserted into the `services` map, while `players`,
`metrics.services_built` and the action log are untouched. -/
theorem add_service_nonatomic (g : AdvancedGameState) (svc : Service)
    (now : String) (stateHash : Int)
    (hrow : 0 ≤ svc.location.row ∧ svc.location.row < (g.grid_height : Int))
    (hcol : 0 ≤ svc.location.col ∧ svc.location.col < (g.grid_width : Int))
    (hfree : (g.service_grid.map Prod.fst).contains svc.location = false)
    (hidx : pyValidIdx g.players.length svc.owner_id = false) :
    (g.add_service svc now stateHash).1 = false
    ∧ (g.add_service svc now stateHash).2.services = dictInsert svc.id svc g.services
    ∧ (g.add_service svc now stateHash).2.metrics = g.metrics
    ∧ (g.add_service svc now stateHash).2.players = g.players
    ∧ (g.add_service svc now stateHash).2.action_log = g.action_log := by
  have hb : (decide (0 ≤ svc.location.row)
      && decide (svc.location.row < (g.grid_height : Int))
      && decide (0 ≤ svc.location.col)
      && decide (svc.location.col < (g.grid_width : Int))) = true := by
    simp [hrow.1, hrow.2, hcol.1, hcol.2]
  simp only [AdvancedGameState.add_service, hb, Bool.not_true, Bool.false_eq_true,
    if_false, hidx]
  split
  · next hcond => rw [hfree] at hcond; cases hcond
  · exact ⟨rfl, rfl, rfl, rfl, rfl⟩

/-- A one-player advanced-engine state on the default 8×6 grid. -/
def onePlayerGame : AdvancedGameState :=
  { game_id := "game-5", round := 1, phase := GamePhase.setup,
    players := [advPlayer 0 "Alice" 100], services := [], grid_width := 8,
    grid_height := 6, entropy := 0, metrics := ⟨0, 0, 0, 0, 0⟩,
    action_log := [], current_player_index := 0 }

/-- A service placed at the in-bounds free cell `(0,0)` but owned by the
nonexistent player index 5. -/
def badOwnerService : Service :=
  { service_type := ServiceType.compute, location := ⟨0, 0⟩, owner_id := 5,
    id := "svc-bad", current_load := 0, connections := [], bugs := 0,
    upgrades := 0 }

/-- Witness for C9 at a concrete one-player game. -/
theorem add_service_nonatomic_witness :
    (onePlayerGame.add_service badOwnerService "t0" 0).1 = false
    ∧ (onePlayerGame.add_service badOwnerService "t0" 0).2.services
        = dictInsert badOwnerService.id badOwnerService onePlayerGame.services
    ∧ (onePlayerGame.add_service badOwnerService "t0" 0).2.metrics
        = onePlayerGame.metrics :=
  ⟨(add_service_nonatomic onePlayerGame badOwnerService "t0" 0
      (by decide) (by decide) (by decide) (by decide)).1,
   (add_service_nonatomic onePlayerGame badOwnerService "t0" 0
      (by decide) (by decide) (by decide) (by decide)).2.1,
   (add_service_nonatomic onePlayerGame badOwnerService "t0" 0
      (by decide) (by decide) (by decide) (by decide)).2.2.1⟩

/-! ## C4 — the turn phase machine -/

/-- The cyclic sequence `Traffic, Action, Resolution, Chaos, Traffic, ...`
claimed for the phase after `k+1` calls to `next_phase` from `Setup`. -/
def cyclePhase (k : Nat) : GamePhase :=
  if k % 4 = 0 then GamePhase.traffic
  else if k % 4 = 1 then GamePhase.action
  else if k % 4 = 2 then GamePhase.resolution
  else GamePhase.chaos

/-- The phase reached by one `next_phase` step of the advanced engine, as a
function of the current phase only. -/
theorem adv_next_phase_phase (s : AdvancedGameState) :
    s.next_phase.phase =
      (match s.phase with
       | GamePhase.setup => GamePhase.traffic
       | GamePhase.traffic => GamePhase.action
       | GamePhase.action => GamePhase.resolution
       | GamePhase.resolution => GamePhase.chaos
       | GamePhase.chaos => GamePhase.traffic
       | GamePhase.end_phase => GamePhase.end_phase) := by
  obtain ⟨a1, a2, ph, a4, a5, a6, a7, a8, a9, a10, a11⟩ := s
  cases ph <;> rfl

/-- The phase reached by one `next_phase` step of the basic engine. -/
theorem gs_next_phase_phase (s : GameState) :
    s.next_phase.phase =
      (match s.phase with
       | GamePhase.setup => GamePhase.traffic
       | GamePhase.traffic => GamePhase.action
       | GamePhase.action => GamePhase.resolution
       | GamePhase.resolution => GamePhase.chaos
       | GamePhase.chaos => GamePhase.traffic
       | GamePhase.end_phase => GamePhase.end_phase) := by
  obtain ⟨a1, a2, ph, a4, a5, a6, a7, a8, a9, a10⟩ := s
  cases ph <;> rfl

/-- One step along the claimed cycle, advanced engine. -/
theorem adv_cycle_step (s : AdvancedGameState) (k : Nat)
    (hs : s.phase = cyclePhase k) :
    s.next_phase.phase = cyclePhase (k + 1) := by
  have h4 : k % 4 = 0 ∨ k % 4 = 1 ∨ k % 4 = 2 ∨ k % 4 = 3 := by omega
  rw [adv_next_phase_phase, hs]
  rcases h4 with h | h | h | h <;>
    · have h' : (k + 1) % 4 = (k % 4 + 1) % 4 := by omega
      simp [cyclePhase, h, h']

/-- One step along the claimed cycle, basic engine. -/
theorem gs_cycle_step (s : GameState) (k : Nat)
    (hs : s.phase = cyclePhase k) :
    s.next_phase.phase = cyclePhase (k + 1) := by
  have h4 : k % 4 = 0 ∨ k % 4 = 1 ∨ k % 4 = 2 ∨ k % 4 = 3 := by omega
  rw [gs_next_phase_phase, hs]
  rcases h4 with h | h | h | h <;>
    · have h' : (k + 1) % 4 = (k % 4 + 1) % 4 := by omega
      simp [cyclePhase, h, h']

/-- Iterating `next_phase` from `Setup`, advanced engine. -/
theorem adv_phase_iterate (g : AdvancedGameState) (k : Nat) :
    (AdvancedGameState.next_phase^[k + 1]
      { g with phase := GamePhase.setup }).phase = cyclePhase k := by
  induction k with
  | zero =>
    rw [Function.iterate_one]
    rw [adv_next_phase_phase]
    rfl
  | succ n ih =>
    rw [Function.iterate_succ_apply']
    exact adv_cycle_step _ n ih

/-- Iterating `next_phase` from `Setup`, basic engine. -/
theorem gs_phase_iterate (b : GameState) (k : Nat) :
    (GameState.next_phase^[k + 1]
      { b with phase := GamePhase.setup }).phase = cyclePhase k := by
  induction k with
  | zero =>
    rw [Function.iterate_one]
    rw [gs_next_phase_phase]
    rfl
  | succ n ih =>
    rw [Function.iterate_succ_apply']
    exact gs_cycle_step _ n ih

/-- C4: in both engines `next_phase` follows the table `Setup→Traffic`,
`Traffic→Action`, `Action→Resolution`, `Resolution→Chaos`, `Chaos→Traffic`;
exactly the `Chaos→Traffic` transition — and, as the full record equalities
of the other five transitions show, no other one — increments `round` by 1,
resets every player's `actions_remaining` to 3 and clears every ability-used
flag; and for every `k`, the phase after `k+1` calls from `Setup` is the
cyclic sequence `Traffic, Action, Resolution, Chaos, Traffic, ...`. -/
theorem next_phase_machine (g : AdvancedGameState) (b : GameState) (k : Nat) :
    (AdvancedGameState.next_phase { g with phase := GamePhase.setup }
        = { g with phase := GamePhase.traffic }
      ∧ AdvancedGameState.next_phase { g with phase := GamePhase.traffic }
        = { g with phase := GamePhase.action }
      ∧ AdvancedGameState.next_phase { g with phase := GamePhase.action }
        = { g with phase := GamePhase.resolution }
      ∧ AdvancedGameState.next_phase { g with phase := GamePhase.resolution }
        = { g with phase := GamePhase.chaos }
      ∧ AdvancedGameState.next_phase { g with phase := GamePhase.chaos }
        = { g with
            phase := GamePhase.traffic
            round := g.round + 1
            current_player_index := 0
            players := g.players.map fun p =>
              { p with actions_remaining := 3, character_ability_used := false } }
      ∧ (AdvancedGameState.next_phase^[k + 1]
          { g with phase := GamePhase.setup }).phase = cyclePhase k)
    ∧ (GameState.next_phase { b with phase := GamePhase.setup }
        = { b with phase := GamePhase.traffic }
      ∧ GameState.next_phase { b with phase := GamePhase.traffic }
        = { b with phase := GamePhase.action }
      ∧ GameState.next_phase { b with phase := GamePhase.action }
        = { b with phase := GamePhase.resolution }
      ∧ GameState.next_phase { b with phase := GamePhase.resolution }
        = { b with phase := GamePhase.chaos }
      ∧ GameState.next_phase { b with phase := GamePhase.chaos }
        = { b with
            phase := GamePhase.traffic
            round := b.round + 1
            current_player_index := 0
            players := b.players.map fun p =>
              { p with actions_remaining := 3, character_ability_used := false } }
      ∧ (GameState.next_phase^[k + 1]
          { b with phase := GamePhase.setup }).phase = cyclePhase k) :=
  ⟨⟨rfl, rfl, rfl, rfl, rfl, adv_phase_iterate g k⟩,
   ⟨rfl, rfl, rfl, rfl, rfl, gs_phase_iterate b k⟩⟩

/-! ## C8 — neighbors and hex distance -/

/-- C8 counterexample: `neighbors(c, radius=2)` is not a ring at distance 2 —
from the origin it still yields the radius-1 offset `(-1,-1)` (the loop runs
over `r in range(1, radius+1)`), a coordinate at distance 1, and its scaled
offset `(-2,-2)`, a coordinate at distance 3. -/
theorem neighbors_radius_cex :
    ((⟨-1, -1⟩ : HexCoordinate) ∈ HexCoordinate.neighbors ⟨0, 0⟩ 2
      ∧ HexCoordinate.distance_to ⟨0, 0⟩ ⟨-1, -1⟩ = 1)
    ∧ ((⟨-2, -2⟩ : HexCoordinate) ∈ HexCoordinate.neighbors ⟨0, 0⟩ 2
      ∧ HexCoordinate.distance_to ⟨0, 0⟩ ⟨-2, -2⟩ = 3) := by
  constructor <;> constructor <;> decide

/-- The six coordinates generated by `neighbors` at the default radius 1. -/
theorem neighbors_one_elems (c : HexCoordinate) :
    c.neighbors 1 =
      if c.row % 2 = 0 then
        [⟨c.row - 1, c.col - 1⟩, ⟨c.row - 1, c.col⟩, ⟨c.row, c.col - 1⟩,
         ⟨c.row, c.col + 1⟩, ⟨c.row + 1, c.col - 1⟩, ⟨c.row + 1, c.col⟩]
      else
        [⟨c.row - 1, c.col⟩, ⟨c.row - 1, c.col + 1⟩, ⟨c.row, c.col - 1⟩,
         ⟨c.row, c.col + 1⟩, ⟨c.row + 1, c.col⟩, ⟨c.row + 1, c.col + 1⟩] := by
  by_cases h : c.row % 2 = 0 <;>
    simp [HexCoordinate.neighbors, h, List.range, List.range.loop] <;>
    constructor <;> omega

set_option maxHeartbeats 1600000 in
/-- C8 (amended): at radius 1 — the only radius the engine itself uses — the
claim holds in full: a coordinate is produced by `neighbors(c, radius=1)` if
and only if its hex distance from `c` is exactly 1, so the six produced
neighbors are exactly the six hexes at distance 1. -/
theorem neighbors_radius_one_exact (c n : HexCoordinate) :
    n ∈ c.neighbors 1 ↔ c.distance_to n = 1 := by
  obtain ⟨cr, cc⟩ := c
  obtain ⟨nr, nc⟩ := n
  rw [neighbors_one_elems]
  by_cases h : cr % 2 = 0 <;>
    simp only [h, if_true, if_false, reduceIte, List.mem_cons, List.not_mem_nil,
      or_false, HexCoordinate.mk.injEq, HexCoordinate.distance_to,
      HexCoordinate.cubeX, HexCoordinate.cubeY, HexCoordinate.cubeZ] <;>
    omega

end PipelineAndPeril
